import Mathlib

/-!
Shallow embedding of the `promptcage` TypeScript client (devndeploy/promptcage).

JavaScript strings are modelled as `List Char`.  Nullable / optional string and
number arguments are modelled as `Option`, with `none` standing for
`null`/`undefined` (and any non-string value, which the source treats the same
way through its `typeof` checks).  JavaScript truthiness-based defaulting
(`a || b`) is modelled by `strOrElse` / `natOrElse`: the empty string and the
number `0` are falsy.

The network is abstracted by a `FetchOutcome` value describing how the single
`fetch` call of `detectInjection` resolves: a parsed 2xx JSON body, a non-2xx
response with a status code and body text, or a thrown value (an `Error`
object with a `name` and `message`, or a non-`Error` value).  The timeout
abort surfaces, exactly as in the source, as a thrown `Error` whose `name` is
`"AbortError"`.  `crypto.randomBytes` is abstracted by an oracle
`Nat → List (Fin 256)` returning the requested number of bytes.

Functions that `throw` are modelled with `Except Str`, carrying the thrown
error message.
-/

/-- JavaScript strings, modelled as lists of characters. -/
abbrev Str := List Char

/-- Coerce a Lean string literal to the `Str` model. -/
def str (s : String) : Str := s.data

/-- The newline character inserted by `addCanaryWord`. -/
def nl : Char := Char.ofNat 10

/-- The dollar character, special in the replacement string of
`String.prototype.replace`. -/
def dollar : Char := Char.ofNat 36

/-- JavaScript truthiness of a possibly-absent string: `null`, `undefined`
and `""` are falsy. -/
def jsFalsyStr : Option Str → Bool
  | none => true
  | some s => s = ([] : Str)

/-- JavaScript `a || b` for a possibly-absent string `a`:
falsy (`null`/`undefined`/empty) falls through to the default. -/
def strOrElse (a : Option Str) (b : Str) : Str :=
  match a with
  | none => b
  | some s => if s = ([] : Str) then b else s

/-- JavaScript `a || b` for a possibly-absent number `a`:
falsy (`null`/`undefined`/`0`) falls through to the default. -/
def natOrElse (a : Option Nat) (b : Nat) : Nat :=
  match a with
  | none => b
  | some n => if n = 0 then b else n

/-- Decimal rendering of a number, as JavaScript template interpolation
produces for a non-negative integer. -/
def natToStr (n : Nat) : Str := (Nat.repr n).data

/-- Index of the first occurrence of `pat` in `s`, as in
`String.prototype.indexOf`; `none` when `pat` does not occur. -/
def findSub (pat : Str) : Str → Option Nat
  | [] => if pat.isPrefixOf ([] : Str) then some 0 else none
  | a :: t =>
    if pat.isPrefixOf (a :: t) then some 0
    else Option.map (· + 1) (findSub pat t)

/-- JavaScript `String.prototype.includes`: exact, case-sensitive contiguous
substring search. -/
def includes (s search : Str) : Bool := (findSub search s).isSome

/-- Expansion of a replacement string per ECMA-262 `GetSubstitution` for a
string (non-regexp) search value, i.e. with no capture groups and no named
captures: only the escapes dollar-dollar, dollar-ampersand, dollar-backtick
and dollar-quote are special; every other dollar sequence is literal.
`matched` is the matched pattern, `before`/`after` the parts of the subject
around the match. -/
def expandRep (matched before after : Str) : Str → Str
  | [] => []
  | a :: b :: rest =>
    if a = dollar then
      if b = dollar then dollar :: expandRep matched before after rest
      else if b = Char.ofNat 38 then matched ++ expandRep matched before after rest
      else if b = Char.ofNat 96 then before ++ expandRep matched before after rest
      else if b = Char.ofNat 39 then after ++ expandRep matched before after rest
      else a :: b :: expandRep matched before after rest
    else a :: expandRep matched before after (b :: rest)
  | [a] => [a]

/-- JavaScript `s.replace(pat, rep)` with a string pattern: replaces the
first occurrence of `pat` only, expanding dollar escapes in `rep`; returns
`s` unchanged when `pat` does not occur. -/
def replaceFirst (s pat rep : Str) : Str :=
  match findSub pat s with
  | none => s
  | some i =>
    s.take i ++ expandRep pat (s.take i) (s.drop (i + pat.length)) rep
      ++ s.drop (i + pat.length)

/-- Lowercase hexadecimal digit for a value below 16, as produced by
`Buffer.prototype.toString` with encoding `hex`. -/
def hexDigit (n : Nat) : Char :=
  if n < 10 then Char.ofNat (48 + n) else Char.ofNat (87 + n)

/-- Two-character lowercase hex rendering of one byte. -/
def byteToHex (b : Fin 256) : Str := [hexDigit (b.val / 16), hexDigit (b.val % 16)]

/-- The sixteen lowercase hexadecimal characters. -/
def hexAlphabet : Str := str "0123456789abcdef"

/-- Response from the detection endpoint, as returned to the caller
(interface `DetectionResponse` in the source). -/
structure DetectionResponse where
  safe : Bool
  detectionId : Str
  error : Option Str
deriving DecidableEq, Repr

/-- A parsed 2xx JSON body: each field may be absent. -/
structure DetectionBody where
  safe : Option Bool
  detectionId : Option Str
  error : Option Str
deriving DecidableEq, Repr

/-- A JavaScript value thrown by `fetch` or `response.json()`. -/
inductive ThrownValue where
  /-- An `Error` instance with its `name` and `message`. -/
  | jsError (name message : Str)
  /-- A thrown value that is not an `Error` instance. -/
  | nonErrorValue
deriving DecidableEq, Repr

/-- How the single network call of `detectInjection` turns out. -/
inductive FetchOutcome where
  /-- HTTP 2xx (`response.ok`) and `response.json()` parsed. -/
  | success (body : DetectionBody)
  /-- A response with `ok = false`, carrying its status and body text. -/
  | httpError (status : Nat) (bodyText : Str)
  /-- `fetch` rejected or `response.json()` threw; a timeout abort arrives
  here as an `Error` named `"AbortError"`. -/
  | thrown (t : ThrownValue)
deriving DecidableEq, Repr

/-- Result of a canary leakage check (interface `CanaryLeakageResult`).
The `canaryWord` field is `Option Str` because on the invalid-completion
branch the source echoes the argument unchanged, which may be `null`. -/
structure CanaryLeakageResult where
  leaked : Bool
  canaryWord : Option Str
  error : Option Str
deriving DecidableEq, Repr

/-- Constructor options (interface `PromptCageOptions`). -/
structure PromptCageOptions where
  apiKey : Option Str
  maxWaitTime : Option Nat
  defaultCanaryLength : Option Nat
  defaultCanaryFormat : Option Str
deriving DecidableEq, Repr

/-- The private fields of a constructed `PromptCage` instance. -/
structure PromptCageState where
  apiKey : Str
  maxWaitTime : Nat
  defaultCanaryLength : Nat
  defaultCanaryFormat : Str
deriving DecidableEq, Repr

deriving instance DecidableEq for Except

/-- The `{canary_word}` placeholder searched for by `addCanaryWord`. -/
def placeholder : Str := str "{canary_word}"

/-- The default canary format set by the constructor. -/
def defaultCanaryFormatLiteral : Str := str "<!-- {canary_word} -->"

/-- The `PromptCage` constructor: resolves the API key from the options or
the `PROMPTCAGE_API_KEY` environment variable (modelled by `env`), applies
the `|| default` fallbacks for the other fields, and throws when no API key
results. -/
def mkPromptCage (env : Option Str) (options : Option PromptCageOptions) :
    Except Str PromptCageState :=
  let apiKey := strOrElse (options.bind (·.apiKey)) (strOrElse env [])
  let state : PromptCageState :=
    { apiKey := apiKey
      maxWaitTime := natOrElse (options.bind (·.maxWaitTime)) 1000
      defaultCanaryLength := natOrElse (options.bind (·.defaultCanaryLength)) 8
      defaultCanaryFormat :=
        strOrElse (options.bind (·.defaultCanaryFormat)) defaultCanaryFormatLiteral }
  if state.apiKey = ([] : Str) then
    .error (str "API key is required. Set PROMPTCAGE_API_KEY environment variable or pass it to the constructor.")
  else
    .ok state

/-- `PromptCage.detectInjection`: validates the prompt, then maps the
outcome of the single `fetch` call to a `DetectionResponse` exactly as the
source's branches do. -/
def detectInjection (prompt : Option Str) (maxWaitTime : Nat)
    (outcome : FetchOutcome) : Except Str DetectionResponse :=
  if jsFalsyStr prompt then
    .error (str "Prompt must be a non-empty string")
  else
    match outcome with
    | .success data =>
      .ok { safe := data.safe.getD false
            detectionId := strOrElse data.detectionId []
            error := data.error }
    | .httpError status bodyText =>
      .ok { safe := true
            detectionId := []
            error := some (str "API request failed with status " ++ natToStr status
              ++ str ": " ++ bodyText) }
    | .thrown (.jsError name message) =>
      if name = str "AbortError" then
        .ok { safe := true
              detectionId := []
              error := some (str "Request exceeded max wait time of "
                ++ natToStr maxWaitTime ++ str "ms") }
      else
        .ok { safe := true, detectionId := [], error := some message }
    | .thrown .nonErrorValue =>
      .ok { safe := true, detectionId := [], error := some (str "Unknown error occurred") }

/-- `PromptCage.generateCanaryWord`: `randomBytes` models
`crypto.randomBytes`; the requested length falls back to the configured
default when falsy, `Math.ceil(length / 2)` bytes are drawn, hex-encoded and
cut to the requested length. -/
def generateCanaryWord (randomBytes : Nat → List (Fin 256))
    (defaultCanaryLength : Nat) (len : Option Nat) : Str :=
  let canaryLength := natOrElse len defaultCanaryLength
  (((randomBytes ((canaryLength + 1) / 2)).map byteToHex).flatten).take canaryLength

/-- `PromptCage.addCanaryWord`: validates the prompt, falls back to a
generated canary (`genCanary` stands for the `generateCanaryWord()` result
used when the argument is falsy) and the configured default format, embeds
the canary via `format.replace` and prepends the marker line to the
prompt. -/
def addCanaryWord (genCanary : Str) (defaultCanaryFormat : Str)
    (prompt canaryWord canaryFormat : Option Str) : Except Str (Str × Str) :=
  if jsFalsyStr prompt then
    .error (str "Prompt must be a non-empty string")
  else
    let canary := strOrElse canaryWord genCanary
    let format := strOrElse canaryFormat defaultCanaryFormat
    let canaryComment := replaceFirst format placeholder canary
    .ok (canaryComment ++ nl :: prompt.getD [], canary)

/-- `PromptCage.isCanaryWordLeaked`: total; invalid arguments are reported
through the result's `error` field, and otherwise the check is
`completion.includes(canaryWord)`. -/
def isCanaryWordLeaked (completion canaryWord : Option Str) : CanaryLeakageResult :=
  if jsFalsyStr completion then
    { leaked := false
      canaryWord := canaryWord
      error := some (str "Completion must be a non-empty string") }
  else if jsFalsyStr canaryWord then
    { leaked := false
      canaryWord := some (strOrElse canaryWord [])
      error := some (str "Canary word must be a non-empty string") }
  else
    { leaked := includes (completion.getD []) (canaryWord.getD [])
      canaryWord := canaryWord
      error := none }

/-- Literal first-occurrence substitution of the placeholder, following the
spec's words for the canary marker line: "the format template with its
placeholder substituted by the canary value".  Used to compare the claimed
behaviour with the source's `String.replace` semantics. -/
def specSubstitutedMarker (format canary : Str) : Str :=
  match findSub placeholder format with
  | none => format
  | some i => format.take i ++ canary ++ format.drop (i + placeholder.length)

/-- Helper: `findSub` returns `none` exactly when the pattern has no occurrence. -/
theorem findSub_eq_none_iff (pat s : Str) : findSub pat s = none ↔ ¬ pat <:+: s := by
  induction s with
  | nil =>
    by_cases h : pat <+: ([] : Str)
    · have hb : pat.isPrefixOf ([] : Str) = true := by simpa using h
      simp [findSub, hb, List.IsPrefix.isInfix h]
    · have hb : pat.isPrefixOf ([] : Str) = false := by
        rw [← Bool.not_eq_true]; simpa using h
      have hni : ¬ pat <:+: ([] : Str) := by
        intro hx
        exact h (List.prefix_nil.2 (List.infix_nil.1 hx))
      simp [findSub, hb, hni]
  | cons a t ih =>
    by_cases h : pat <+: a :: t
    · have hb : pat.isPrefixOf (a :: t) = true := by simpa using h
      simp [findSub, hb, List.IsPrefix.isInfix h]
    · have hb : pat.isPrefixOf (a :: t) = false := by
        rw [← Bool.not_eq_true]; simpa using h
      simp only [findSub, hb, Bool.false_eq_true, if_false, Option.map_eq_none', ih,
        List.infix_cons_iff]
      constructor
      · intro hnt hx
        rcases hx with hx | hx
        · exact h hx
        · exact hnt hx
      · intro hx hnt
        exact hx (Or.inr hnt)

/-- Helper: JavaScript `includes` decides substring occurrence. -/
theorem includes_iff {s pat : Str} : includes s pat = true ↔ pat <:+: s := by
  unfold includes
  rw [Option.isSome_iff_ne_none, Ne, findSub_eq_none_iff]
  exact not_not

/-- Helper: dollar-free replacement strings expand to themselves. -/
theorem expandRep_of_not_mem (m b a : Str) :
    ∀ rep : Str, dollar ∉ rep → expandRep m b a rep = rep := by
  intro rep
  induction rep with
  | nil => intro _; rfl
  | cons c rest ih =>
    intro h
    cases rest with
    | nil => rfl
    | cons d rest' =>
      have hc : ¬ c = dollar := fun hEq => h (by rw [hEq]; exact List.mem_cons_self _ _)
      have ht : dollar ∉ d :: rest' := fun hm => h (List.mem_cons_of_mem _ hm)
      simp [expandRep, hc, ih ht]

/-- Helper: when the pattern does not occur, `replaceFirst` is the identity. -/
theorem replaceFirst_of_no_occurrence {s pat : Str} (h : ¬ pat <:+: s) (rep : Str) :
    replaceFirst s pat rep = s := by
  unfold replaceFirst
  rw [(findSub_eq_none_iff pat s).2 h]

/-- Helper: for a dollar-free canary, the source's `String.replace` coincides
with the literal placeholder substitution described by the spec. -/
theorem replaceFirst_eq_specSubstitutedMarker {format canary : Str}
    (h : dollar ∉ canary) :
    replaceFirst format placeholder canary = specSubstitutedMarker format canary := by
  unfold replaceFirst specSubstitutedMarker
  cases hf : findSub placeholder format with
  | none => rfl
  | some i => simp only [expandRep_of_not_mem _ _ _ _ h]

/-- Helper: a word that is a possibly-overflowing front of `f ++ c :: p` but
avoids `c` is already a front of `f`. -/
theorem prefix_of_prefix_append_cons {c : Char} {cw : Str} (hc : c ∉ cw) :
    ∀ {f p : Str}, cw <+: f ++ c :: p → cw <+: f := by
  induction cw with
  | nil => intro f p _; exact List.nil_prefix
  | cons d cw' ih =>
    intro f p h
    cases f with
    | nil =>
      simp only [List.nil_append, List.cons_prefix_cons] at h
      exact absurd (h.1 ▸ List.mem_cons_self d cw') hc
    | cons a f' =>
      simp only [List.cons_append, List.cons_prefix_cons] at h
      exact List.cons_prefix_cons.2 ⟨h.1, ih (fun hm => hc (List.mem_cons_of_mem _ hm)) h.2⟩

/-- Helper: a word avoiding the character `c` and occurring in neither part
does not occur in `f ++ c :: p`. -/
theorem not_infix_append_cons {c : Char} {cw p : Str} (hc : c ∉ cw)
    (hp : ¬ cw <:+: p) : ∀ f : Str, ¬ cw <:+: f → ¬ cw <:+: f ++ c :: p := by
  intro f
  induction f with
  | nil =>
    intro _ h
    simp only [List.nil_append] at h
    rcases List.infix_cons_iff.1 h with hpre | hinf
    · have hnil : cw <+: ([] : Str) :=
        prefix_of_prefix_append_cons hc (by simpa using hpre)
      exact hp (List.prefix_nil.1 hnil ▸ List.nil_infix)
    · exact hp hinf
  | cons a f' ih =>
    intro hf h
    simp only [List.cons_append] at h
    rcases List.infix_cons_iff.1 h with hpre | hinf
    · have hfp : cw <+: a :: f' :=
        prefix_of_prefix_append_cons hc (by simpa using hpre)
      exact hf ( List.IsPrefix.isInfix hfp)
    · exact ih (fun hx => hf (List.infix_cons_iff.2 (Or.inr hx))) hinf

/-- C2: for non-empty `completion` and `canaryWord`, the leak check reports
`leaked = true` exactly when the canary word occurs as an exact,
case-sensitive contiguous substring of the completion; the result echoes the
canary word and carries no error. -/
theorem isCanaryWordLeaked_substring (completion canaryWord : Str)
    (hcomp : completion ≠ []) (hcan : canaryWord ≠ []) :
    (isCanaryWordLeaked (some completion) (some canaryWord)).canaryWord
        = some canaryWord ∧
    (isCanaryWordLeaked (some completion) (some canaryWord)).error = none ∧
    ((isCanaryWordLeaked (some completion) (some canaryWord)).leaked = true ↔
      canaryWord <:+: completion) := by
  simp [isCanaryWordLeaked, jsFalsyStr, hcomp, hcan, includes_iff]

/-- Witness for C2 at a concrete leaked completion. -/
theorem isCanaryWordLeaked_substring_witness :
    (isCanaryWordLeaked (some (str "has test123 inside")) (some (str "test123"))).canaryWord
        = some (str "test123") ∧
    (isCanaryWordLeaked (some (str "has test123 inside")) (some (str "test123"))).error = none ∧
    ((isCanaryWordLeaked (some (str "has test123 inside")) (some (str "test123"))).leaked = true ↔
      str "test123" <:+: str "has test123 inside") :=
  isCanaryWordLeaked_substring (str "has test123 inside") (str "test123")
    (by decide) (by decide)

/-- C3: an absent or empty prompt makes both `detectInjection` and
`addCanaryWord` throw "Prompt must be a non-empty string"; for
`detectInjection` the result is the same for every network outcome, i.e. the
validation error is raised before and independent of any network call. -/
theorem invalid_prompt_throws (prompt : Option Str)
    (hp : prompt = none ∨ prompt = some []) (maxWaitTime : Nat)
    (outcome : FetchOutcome) (genCanary defaultFormat : Str)
    (canaryWord canaryFormat : Option Str) :
    detectInjection prompt maxWaitTime outcome
        = .error (str "Prompt must be a non-empty string") ∧
    addCanaryWord genCanary defaultFormat prompt canaryWord canaryFormat
        = .error (str "Prompt must be a non-empty string") := by
  rcases hp with rfl | rfl <;> simp [detectInjection, addCanaryWord, jsFalsyStr]

/-- Witness for C3 at concrete inputs. -/
theorem invalid_prompt_throws_witness :
    detectInjection none 1000 (.thrown .nonErrorValue)
        = .error (str "Prompt must be a non-empty string") ∧
    addCanaryWord (str "aaaaaaaa") defaultCanaryFormatLiteral none none none
        = .error (str "Prompt must be a non-empty string") :=
  invalid_prompt_throws none (Or.inl rfl) 1000 (.thrown .nonErrorValue)
    (str "aaaaaaaa") defaultCanaryFormatLiteral none none

/-- C5: a non-2xx response yields the fail-open result whose error text is
exactly "API request failed with status " plus the decimal status code, a
colon-space, and the raw body text; in particular status 401 with body
"Unauthorized" gives exactly the claimed string. -/
theorem detectInjection_httpError_format :
    (∀ (prompt : Str), prompt ≠ [] → ∀ (maxWaitTime status : Nat) (bodyText : Str),
      detectInjection (some prompt) maxWaitTime (.httpError status bodyText) =
        .ok { safe := true, detectionId := [],
              error := some (str "API request failed with status " ++ natToStr status
                ++ str ": " ++ bodyText) }) ∧
    detectInjection (some (str "test prompt")) 1000 (.httpError 401 (str "Unauthorized")) =
      .ok { safe := true, detectionId := [],
            error := some (str "API request failed with status 401: Unauthorized") } := by
  constructor
  · intro prompt hp maxWaitTime status bodyText
    simp [detectInjection, jsFalsyStr, hp]
  · decide

/-- Witness for C5, applying the universally quantified part. -/
theorem detectInjection_httpError_format_witness :
    detectInjection (some (str "y")) 7 (.httpError 503 (str "Service Unavailable")) =
      .ok { safe := true, detectionId := [],
            error := some (str "API request failed with status " ++ natToStr 503
              ++ str ": " ++ str "Service Unavailable") } :=
  detectInjection_httpError_format.1 (str "y") (by decide) 7 503 (str "Service Unavailable")

/-- C8: the leak check is total and fail-safe: an absent or empty completion
reports "Completion must be a non-empty string", a valid completion with an
absent or empty canary word reports "Canary word must be a non-empty
string", both with `leaked = false`. -/
theorem isCanaryWordLeaked_invalid (canaryWordArg : Option Str)
    (completion : Str) (hcomp : completion ≠ []) :
    isCanaryWordLeaked none canaryWordArg =
      { leaked := false, canaryWord := canaryWordArg,
        error := some (str "Completion must be a non-empty string") } ∧
    isCanaryWordLeaked (some []) canaryWordArg =
      { leaked := false, canaryWord := canaryWordArg,
        error := some (str "Completion must be a non-empty string") } ∧
    isCanaryWordLeaked (some completion) none =
      { leaked := false, canaryWord := some [],
        error := some (str "Canary word must be a non-empty string") } ∧
    isCanaryWordLeaked (some completion) (some []) =
      { leaked := false, canaryWord := some [],
        error := some (str "Canary word must be a non-empty string") } := by
  refine ⟨?_, ?_, ?_, ?_⟩ <;>
    simp [isCanaryWordLeaked, jsFalsyStr, hcomp, strOrElse]

/-- Witness for C8 at concrete inputs. -/
theorem isCanaryWordLeaked_invalid_witness :
    isCanaryWordLeaked none (some (str "x")) =
      { leaked := false, canaryWord := some (str "x"),
        error := some (str "Completion must be a non-empty string") } ∧
    isCanaryWordLeaked (some []) (some (str "x")) =
      { leaked := false, canaryWord := some (str "x"),
        error := some (str "Completion must be a non-empty string") } ∧
    isCanaryWordLeaked (some (str "x")) none =
      { leaked := false, canaryWord := some [],
        error := some (str "Canary word must be a non-empty string") } ∧
    isCanaryWordLeaked (some (str "x")) (some []) =
      { leaked := false, canaryWord := some [],
        error := some (str "Canary word must be a non-empty string") } :=
  isCanaryWordLeaked_invalid (some (str "x")) (str "x") (by decide)

/-- C4: on a parsed 2xx body, `safe` is the body's field defaulted to
`false` when absent or `false`, `detectionId` is defaulted to the empty
string when absent or empty, and `error` is passed through unchanged. -/
theorem detectInjection_success_defaults (prompt : Str) (hp : prompt ≠ [])
    (maxWaitTime : Nat) (body : DetectionBody) :
    ∃ r : DetectionResponse,
      detectInjection (some prompt) maxWaitTime (.success body) = .ok r ∧
      (body.safe = some true → r.safe = true) ∧
      (body.safe = some false ∨ body.safe = none → r.safe = false) ∧
      (body.detectionId = none ∨ body.detectionId = some [] → r.detectionId = []) ∧
      (∀ d : Str, body.detectionId = some d → d ≠ [] → r.detectionId = d) ∧
      r.error = body.error := by
  refine ⟨{ safe := body.safe.getD false, detectionId := strOrElse body.detectionId [],
            error := body.error }, ?_, ?_, ?_, ?_, ?_, rfl⟩
  · simp [detectInjection, jsFalsyStr, hp]
  · intro h; simp [h]
  · rintro (h | h) <;> simp [h]
  · rintro (h | h) <;> simp [h, strOrElse]
  · intro d hd hne; simp [hd, strOrElse, hne]

/-- Witness for C4 at a concrete body with absent fields. -/
theorem detectInjection_success_defaults_witness :
    ∃ r : DetectionResponse,
      detectInjection (some (str "test prompt")) 1000
          (.success { safe := none, detectionId := none, error := some (str "e") }) = .ok r ∧
      ((none : Option Bool) = some true → r.safe = true) ∧
      ((none : Option Bool) = some false ∨ (none : Option Bool) = none → r.safe = false) ∧
      ((none : Option Str) = none ∨ (none : Option Str) = some [] → r.detectionId = []) ∧
      (∀ d : Str, (none : Option Str) = some d → d ≠ [] → r.detectionId = d) ∧
      r.error = some (str "e") :=
  detectInjection_success_defaults (str "test prompt") (by decide) 1000
    { safe := none, detectionId := none, error := some (str "e") }

/-- C10: the constructor conflates falsy and default: `maxWaitTime = 0`
yields the same constructed state as omitting it (1000 ms), the configured
deadline is never zero, and an explicitly supplied empty-string apiKey is
treated as absent, falling back to the environment variable before
construction fails. -/
theorem mkPromptCage_falsy_defaults (env : Option Str) (opts : PromptCageOptions) :
    mkPromptCage env (some { opts with maxWaitTime := some 0 }) =
      mkPromptCage env (some { opts with maxWaitTime := none }) ∧
    (∀ st, mkPromptCage env (some { opts with maxWaitTime := some 0 }) = .ok st →
      st.maxWaitTime = 1000) ∧
    (∀ o : Option PromptCageOptions, ∀ st, mkPromptCage env o = .ok st →
      st.maxWaitTime ≠ 0) ∧
    mkPromptCage env (some { opts with apiKey := some [] }) =
      mkPromptCage env (some { opts with apiKey := none }) ∧
    (∀ key : Str, key ≠ [] →
      ∃ st, mkPromptCage (some key) (some { opts with apiKey := some [] }) = .ok st ∧
        st.apiKey = key) := by
  refine ⟨?_, ?_, ?_, ?_, ?_⟩
  · simp [mkPromptCage, natOrElse]
  · intro st h
    simp only [mkPromptCage, natOrElse] at h
    split at h
    · exact absurd h (by simp)
    · cases h; rfl
  · intro o st h
    simp only [mkPromptCage] at h
    split at h
    · exact absurd h (by simp)
    · cases h
      simp only [natOrElse]
      cases o.bind (·.maxWaitTime) with
      | none => decide
      | some n =>
        by_cases hn : n = 0
        · simp [hn]
        · simp [hn]
  · simp [mkPromptCage, strOrElse]
  · intro key hkey
    refine ⟨{ apiKey := key, maxWaitTime := natOrElse opts.maxWaitTime 1000,
              defaultCanaryLength := natOrElse opts.defaultCanaryLength 8,
              defaultCanaryFormat := strOrElse opts.defaultCanaryFormat
                defaultCanaryFormatLiteral }, ?_, rfl⟩
    simp [mkPromptCage, strOrElse, hkey]

/-- Witness for C10 at a concrete environment key. -/
theorem mkPromptCage_falsy_defaults_witness :
    ∃ st, mkPromptCage (some (str "k"))
        (some { ({ apiKey := none, maxWaitTime := none, defaultCanaryLength := none,
                    defaultCanaryFormat := none } : PromptCageOptions) with
                  apiKey := some [] }) = .ok st ∧
      st.apiKey = str "k" :=
  (mkPromptCage_falsy_defaults (some (str "k"))
    { apiKey := none, maxWaitTime := none, defaultCanaryLength := none,
      defaultCanaryFormat := none }).2.2.2.2 (str "k") (by decide)

/-- C1 (amended): for a non-empty prompt, any outcome other than a parsed
2xx response yields, without raising, `safe = true`, `detectionId = ""` and
a present error string; that string is non-empty except precisely when the
failure is a thrown non-abort `Error` whose own message is empty, in which
case the error equals that (empty) message. -/
theorem detectInjection_fail_open (prompt : Str) (hp : prompt ≠ [])
    (maxWaitTime : Nat) (outcome : FetchOutcome)
    (hout : ∀ body, outcome ≠ .success body) :
    ∃ e : Str, detectInjection (some prompt) maxWaitTime outcome =
        .ok { safe := true, detectionId := [], error := some e } ∧
      (e = [] ↔ ∃ name, name ≠ str "AbortError" ∧
        outcome = .thrown (.jsError name [])) := by
  cases outcome with
  | success body => exact absurd rfl (hout body)
  | httpError status bodyText =>
    refine ⟨str "API request failed with status " ++ natToStr status
        ++ str ": " ++ bodyText, by simp [detectInjection, jsFalsyStr, hp], ?_⟩
    constructor
    · intro h
      exact absurd h (by simp [str])
    · rintro ⟨name, -, h⟩
      exact FetchOutcome.noConfusion h
  | thrown t =>
    cases t with
    | jsError name message =>
      by_cases hn : name = str "AbortError"
      · refine ⟨str "Request exceeded max wait time of " ++ natToStr maxWaitTime
            ++ str "ms", by simp [detectInjection, jsFalsyStr, hp, hn], ?_⟩
        constructor
        · intro h
          exact absurd h (by simp [str])
        · rintro ⟨name', hne, h⟩
          have h1 : name = name' := congrArg
            (fun o => match o with
              | FetchOutcome.thrown (ThrownValue.jsError n _) => n
              | _ => name) h
          exact (hne (by rw [← h1]; exact hn)).elim
      · refine ⟨message, by simp [detectInjection, jsFalsyStr, hp, hn], ?_⟩
        constructor
        · intro h
          exact ⟨name, hn, by rw [h]⟩
        · rintro ⟨name', -, h⟩
          exact congrArg
            (fun o => match o with
              | FetchOutcome.thrown (ThrownValue.jsError _ m) => m
              | _ => message) h
    | nonErrorValue =>
      refine ⟨str "Unknown error occurred",
        by simp [detectInjection, jsFalsyStr, hp], ?_⟩
      constructor
      · intro h
        exact absurd h (by simp [str])
      · rintro ⟨name', -, h⟩
        exact ThrownValue.noConfusion (FetchOutcome.thrown.inj h)

/-- Witness for C1 (amended) at a concrete non-2xx outcome. -/
theorem detectInjection_fail_open_witness :
    ∃ e : Str, detectInjection (some (str "test prompt")) 1000
          (.httpError 500 (str "oops")) =
        .ok { safe := true, detectionId := [], error := some e } ∧
      (e = [] ↔ ∃ name, name ≠ str "AbortError" ∧
        FetchOutcome.httpError 500 (str "oops") = .thrown (.jsError name [])) :=
  detectInjection_fail_open (str "test prompt") (by decide) 1000
    (.httpError 500 (str "oops")) (fun _ h => nomatch h)

/-- Counterexample to C1 as stated: a transport failure thrown as an
`Error` with an empty message is passed through, so the returned error
string is empty, not a non-empty descriptive string. -/
theorem detectInjection_fail_open_cex :
    ¬ ∃ e : Str, e ≠ [] ∧
      detectInjection (some (str "test prompt")) 1000
          (.thrown (.jsError (str "FetchError") [])) =
        .ok { safe := true, detectionId := [], error := some e } := by
  rintro ⟨e, hne, heq⟩
  have h0 : detectInjection (some (str "test prompt")) 1000
      (.thrown (.jsError (str "FetchError") [])) =
        .ok { safe := true, detectionId := [], error := some [] } := by decide
  rw [h0] at heq
  injection heq with h1
  injection h1 with h2 h3 h4
  exact hne (Option.some_injective _ h4).symm

/-- Helper: hex-encoding n bytes yields 2n characters. -/
theorem hexFlatten_length (bs : List (Fin 256)) :
    ((bs.map byteToHex).flatten).length = 2 * bs.length := by
  induction bs with
  | nil => rfl
  | cons b t ih =>
    simp only [List.map_cons, List.flatten_cons, List.length_append, ih,
      byteToHex, List.length_cons, List.length_nil]
    omega

/-- Helper: hex digits of values below 16 are lowercase hex characters. -/
theorem hexDigit_mem : ∀ x : Nat, x < 16 → hexDigit x ∈ hexAlphabet := by decide

/-- C6: with a byte oracle returning the requested number of bytes, the
generated canary word consists only of lowercase hexadecimal characters, has
length exactly `n` for every positive requested length `n` (odd included),
and falls back to the configured default length when the requested length is
zero or absent; the configured default is 8 when the constructor received
none. -/
theorem generateCanaryWord_spec (randomBytes : Nat → List (Fin 256))
    (hrb : ∀ k, (randomBytes k).length = k) (defaultCanaryLength : Nat) :
    (∀ n : Nat, 0 < n →
      (generateCanaryWord randomBytes defaultCanaryLength (some n)).length = n) ∧
    (generateCanaryWord randomBytes defaultCanaryLength (some 0)).length
        = defaultCanaryLength ∧
    (generateCanaryWord randomBytes defaultCanaryLength none).length
        = defaultCanaryLength ∧
    (∀ len : Option Nat, ∀ c ∈ generateCanaryWord randomBytes defaultCanaryLength len,
      c ∈ hexAlphabet) ∧
    (∀ env opts st, mkPromptCage env opts = .ok st →
      opts.bind (·.defaultCanaryLength) = none → st.defaultCanaryLength = 8) := by
  have key : ∀ L : Nat,
      ((((randomBytes ((L + 1) / 2)).map byteToHex).flatten).take L).length = L := by
    intro L
    rw [List.length_take, hexFlatten_length, hrb]
    omega
  refine ⟨?_, ?_, ?_, ?_, ?_⟩
  · intro n hn
    have hne : ¬ n = 0 := Nat.pos_iff_ne_zero.mp hn
    simp only [generateCanaryWord, natOrElse, hne, if_false]
    exact key n
  · simp only [generateCanaryWord, natOrElse, if_pos rfl]
    exact key defaultCanaryLength
  · simp only [generateCanaryWord, natOrElse]
    exact key defaultCanaryLength
  · intro len c hc
    simp only [generateCanaryWord] at hc
    have hcf : c ∈ ((randomBytes ((natOrElse len defaultCanaryLength + 1) / 2)).map
        byteToHex).flatten :=
      List.IsPrefix.subset ( List.take_prefix _ _) hc
    rcases List.mem_flatten.1 hcf with ⟨piece, hpm, hcp⟩
    rcases List.mem_map.1 hpm with ⟨b, -, rfl⟩
    have hb := b.isLt
    rcases hcp with _ | ⟨-, hcp⟩
    · exact hexDigit_mem _ (by omega)
    · rcases hcp with _ | ⟨-, hcp⟩
      · exact hexDigit_mem _ (by omega)
      · exact absurd hcp (List.not_mem_nil c)
  · intro env opts st h hnone
    simp only [mkPromptCage] at h
    split at h
    · exact absurd h (by simp)
    · cases h
      simp [natOrElse, hnone]

/-- Witness for C6 with a concrete byte oracle and an odd length. -/
theorem generateCanaryWord_spec_witness :
    (generateCanaryWord (fun k => List.replicate k (171 : Fin 256)) 8 (some 7)).length = 7 :=
  (generateCanaryWord_spec (fun k => List.replicate k (171 : Fin 256))
    (fun k => List.length_replicate k _) 8).1 7 (by decide)

/-- C7 (amended): for a non-empty prompt, provided the canary word actually
used contains no dollar character, the first element of the result is the
format template with its placeholder substituted literally by the canary
value, followed by exactly one newline and the original prompt, and the
second element is the canary word used; with the default format, any canary
word occurs verbatim inside such a first element. -/
theorem addCanaryWord_embedding (genCanary defaultFormat prompt : Str)
    (hp : prompt ≠ []) (canaryWord canaryFormat : Option Str)
    (hd : dollar ∉ strOrElse canaryWord genCanary) :
    addCanaryWord genCanary defaultFormat (some prompt) canaryWord canaryFormat =
      .ok (specSubstitutedMarker (strOrElse canaryFormat defaultFormat)
            (strOrElse canaryWord genCanary) ++ nl :: prompt,
          strOrElse canaryWord genCanary) ∧
    (∀ canary : Str,
      canary <:+: specSubstitutedMarker defaultCanaryFormatLiteral canary
        ++ nl :: prompt) := by
  constructor
  · simp [addCanaryWord, jsFalsyStr, hp, replaceFirst_eq_specSubstitutedMarker hd]
  · intro canary
    have hm : specSubstitutedMarker defaultCanaryFormatLiteral canary
        = str "<!-- " ++ canary ++ str " -->" := by
      have h5 : findSub placeholder defaultCanaryFormatLiteral = some 5 := by decide
      simp only [specSubstitutedMarker, h5]
      rw [show defaultCanaryFormatLiteral.take 5 = str "<!-- " from rfl,
        show defaultCanaryFormatLiteral.drop (5 + placeholder.length) = str " -->" from rfl]
    rw [hm]
    exact ⟨str "<!-- ", str " -->" ++ nl :: prompt, by simp⟩

/-- Witness for C7 (amended) at a concrete supplied canary. -/
theorem addCanaryWord_embedding_witness :
    addCanaryWord (str "aaaaaaaa") defaultCanaryFormatLiteral (some (str "hi"))
        (some (str "testcanary123")) none =
      .ok (specSubstitutedMarker (strOrElse none defaultCanaryFormatLiteral)
            (strOrElse (some (str "testcanary123")) (str "aaaaaaaa")) ++ nl :: str "hi",
          strOrElse (some (str "testcanary123")) (str "aaaaaaaa")) ∧
    (∀ canary : Str,
      canary <:+: specSubstitutedMarker defaultCanaryFormatLiteral canary
        ++ nl :: str "hi") :=
  addCanaryWord_embedding (str "aaaaaaaa") defaultCanaryFormatLiteral (str "hi")
    (by decide) (some (str "testcanary123")) none (by decide)

/-- Counterexample to C7 as stated: a canary word containing a dollar escape
is not substituted literally by `String.replace` - with canary
dollar-ampersand the marker keeps the placeholder text, differs from the
claimed substituted marker, and the canary does not occur verbatim in the
first element. -/
theorem addCanaryWord_embedding_cex :
    addCanaryWord (str "aaaaaaaa") defaultCanaryFormatLiteral (some (str "p"))
        (some [dollar, Char.ofNat 38]) none =
      .ok (str "<!-- {canary_word} -->" ++ nl :: str "p", [dollar, Char.ofNat 38]) ∧
    str "<!-- {canary_word} -->" ++ nl :: str "p" ≠
      specSubstitutedMarker defaultCanaryFormatLiteral [dollar, Char.ofNat 38]
        ++ nl :: str "p" ∧
    includes (str "<!-- {canary_word} -->" ++ nl :: str "p")
        [dollar, Char.ofNat 38] = false := by
  decide

/-- C9 (amended): for a custom format containing no placeholder, the
substitution leaves the format unchanged, so the first element is the
format, one newline, and the prompt; provided the canary word occurs in
neither the format nor the prompt and contains no newline, the first
element does not contain the canary word and a leak check on it reports
`leaked = false`; and the substitution rewrites only the first placeholder
occurrence. -/
theorem addCanaryWord_no_placeholder (genCanary defaultFormat prompt : Str)
    (hp : prompt ≠ []) (canaryWord canaryFormat : Option Str)
    (hfmt : ¬ placeholder <:+: strOrElse canaryFormat defaultFormat)
    (hcf : ¬ strOrElse canaryWord genCanary <:+: strOrElse canaryFormat defaultFormat)
    (hcp : ¬ strOrElse canaryWord genCanary <:+: prompt)
    (hnl : nl ∉ strOrElse canaryWord genCanary) :
    addCanaryWord genCanary defaultFormat (some prompt) canaryWord canaryFormat =
      .ok (strOrElse canaryFormat defaultFormat ++ nl :: prompt,
           strOrElse canaryWord genCanary) ∧
    includes (strOrElse canaryFormat defaultFormat ++ nl :: prompt)
        (strOrElse canaryWord genCanary) = false ∧
    (isCanaryWordLeaked (some (strOrElse canaryFormat defaultFormat ++ nl :: prompt))
        (some (strOrElse canaryWord genCanary))).leaked = false ∧
    replaceFirst (str "x {canary_word} y {canary_word} z") placeholder (str "C")
        = str "x C y {canary_word} z" := by
  have hni : ¬ strOrElse canaryWord genCanary <:+:
      strOrElse canaryFormat defaultFormat ++ nl :: prompt :=
    not_infix_append_cons hnl hcp _ hcf
  have hinc : includes (strOrElse canaryFormat defaultFormat ++ nl :: prompt)
      (strOrElse canaryWord genCanary) = false := by
    rw [← Bool.not_eq_true]
    rw [includes_iff]
    exact hni
  have hcne : strOrElse canaryWord genCanary ≠ [] :=
    fun h => hcp (h ▸ List.nil_infix)
  refine ⟨?_, hinc, ?_, by decide⟩
  · simp [addCanaryWord, jsFalsyStr, hp, replaceFirst_of_no_occurrence hfmt]
  · simp [isCanaryWordLeaked, jsFalsyStr, hcne, hinc]

/-- Witness for C9 (amended) at a concrete placeholder-free format. -/
theorem addCanaryWord_no_placeholder_witness :
    addCanaryWord (str "aaaaaaaa") defaultCanaryFormatLiteral (some (str "hello"))
        (some (str "abc")) (some (str "no marker")) =
      .ok (strOrElse (some (str "no marker")) defaultCanaryFormatLiteral ++ nl :: str "hello",
           strOrElse (some (str "abc")) (str "aaaaaaaa")) ∧
    includes (strOrElse (some (str "no marker")) defaultCanaryFormatLiteral ++ nl :: str "hello")
        (strOrElse (some (str "abc")) (str "aaaaaaaa")) = false ∧
    (isCanaryWordLeaked
        (some (strOrElse (some (str "no marker")) defaultCanaryFormatLiteral ++ nl :: str "hello"))
        (some (strOrElse (some (str "abc")) (str "aaaaaaaa")))).leaked = false ∧
    replaceFirst (str "x {canary_word} y {canary_word} z") placeholder (str "C")
        = str "x C y {canary_word} z" :=
  addCanaryWord_no_placeholder (str "aaaaaaaa") defaultCanaryFormatLiteral (str "hello")
    (by decide) (some (str "abc")) (some (str "no marker"))
    (by decide) (by decide) (by decide) (by decide)

/-- Counterexample to C9 as stated: with a placeholder-free format, the
canary word can still occur in the first element - here it occurs inside
the original prompt - so output derived from the embedded prompt makes the
leak check report `leaked = true`. -/
theorem addCanaryWord_no_placeholder_cex :
    addCanaryWord (str "aaaaaaaa") defaultCanaryFormatLiteral (some (str "see abc"))
        (some (str "abc")) (some (str "no marker")) =
      .ok (str "no marker" ++ nl :: str "see abc", str "abc") ∧
    includes (str "no marker" ++ nl :: str "see abc") (str "abc") = true ∧
    (isCanaryWordLeaked (some (str "no marker" ++ nl :: str "see abc"))
        (some (str "abc"))).leaked = true := by
  decide
